import Mathlib

/-
Verification of the spatial-positioning core of the songbird Source model
(src/source.js) against its design specification.

The JavaScript numbers are modelled as exact real numbers.  Each setter on a
Source is embedded as a function from the source state (and the listener
position it reads) to the new state together with the values it pushes to the
two collaborators: the distance handed to the attenuation object's
setDistance, and the azimuth/elevation pair handed to the encoder's
setDirection.  The directivity gain written to the gain node is recorded as
well, as is the intermediate normalized direction vector that setPosition
computes, since the specification speaks about it directly.
-/

namespace Songbird

noncomputable section

/-- A 3-component vector of reals, modelling a JavaScript Float32Array of
length 3 in exact arithmetic. -/
structure Vec3 where
  x : ℝ
  y : ℝ
  z : ℝ

/-- A quaternion stored as the 4-element array the code uses:
q0 is the scalar part, (q1, q2, q3) the vector part. -/
structure Quat where
  q0 : ℝ
  q1 : ℝ
  q2 : ℝ
  q3 : ℝ

/-- Modelled from the spec: globals.js is not under src/.  The code multiplies
radian angles by Globals.OneEightyByPi to obtain degrees; the spec gives the
formulas azimuth = atan2(-dx, dz) * (180/pi) in section 4.2. -/
def OneEightyByPi : ℝ := 180 / Real.pi

/-- Modelled from the spec: globals.js is not under src/.  The code multiplies
degree angles by Globals.PiByOneEighty to obtain radians, the inverse of the
conversion in section 4.2. -/
def PiByOneEighty : ℝ := Real.pi / 180

/-- Modelled from the spec: globals.js is not under src/.  The spec (section
4.2) says computeDirectivity returns 1.0 when alpha is below a small epsilon
threshold; this is that threshold. -/
def EpsilonFloat : ℝ := 1e-8

/-- JavaScript Math.atan2 semantics on exact reals (no signed zeros or NaN):
the angle of the point (x, y), in (-pi, pi], with atan2 0 0 = 0. -/
def atan2 (y x : ℝ) : ℝ :=
  if 0 < x then Real.arctan (y / x)
  else if x < 0 then
    (if 0 ≤ y then Real.arctan (y / x) + Real.pi
     else Real.arctan (y / x) - Real.pi)
  else if 0 < y then Real.pi / 2
  else if y < 0 then -(Real.pi / 2)
  else 0

/-- The mutable fields of a Source that the positioning core reads and
writes (src/source.js lines 66-72). -/
structure SourceState where
  _position : Vec3
  _velocity : Vec3
  _orientation_q : Quat
  _forward : Vec3
  _directivity_alpha : ℝ
  _directivity_order : ℝ

/-- The result of one positioning update: the new source state, the gain
written to the directivity gain node, the intermediate normalized direction
vector, and the values pushed to the two collaborators
(attenuation.setDistance and encoder.setDirection). -/
structure PoseUpdate where
  state : SourceState
  directivityGain : ℝ
  direction : Vec3
  attenuationDistance : ℝ
  encoderAzimuth : ℝ
  encoderElevation : ℝ

/-- computeDirectivity (src/source.js lines 244-255): below the epsilon
threshold on alpha the gain is 1.0; otherwise the gain is
|(1 - alpha) + alpha * cosTheta| raised to the real power order, where
cosTheta is the dot product of the forward and direction-to-listener
vectors. -/
def computeDirectivity (forward direction_to_listener : Vec3)
    (alpha order : ℝ) : ℝ :=
  if alpha < EpsilonFloat then 1.0
  else
    let cosTheta := forward.x * direction_to_listener.x +
      forward.y * direction_to_listener.y +
      forward.z * direction_to_listener.z
    let gain := (1 - alpha) + alpha * cosTheta
    |gain| ^ order

/-- toQuaternion (src/source.js lines 219-232): roll/pitch/yaw in radians to
a quaternion, via half-angle sines and cosines. -/
def toQuaternion (roll pitch yaw : ℝ) : Quat :=
  let t0 := Real.cos (yaw * 0.5)
  let t1 := Real.sin (yaw * 0.5)
  let t2 := Real.cos (roll * 0.5)
  let t3 := Real.sin (roll * 0.5)
  let t4 := Real.cos (pitch * 0.5)
  let t5 := Real.sin (pitch * 0.5)
  ⟨t0 * t2 * t4 + t1 * t3 * t5,
   t0 * t3 * t4 - t1 * t2 * t5,
   t0 * t2 * t5 + t1 * t3 * t4,
   t1 * t2 * t4 - t0 * t3 * t5⟩

/-- hamiltonProduct (src/source.js lines 235-242): the Hamilton product of
two quaternions in the same component order the code uses. -/
def hamiltonProduct (q1 q2 : Quat) : Quat :=
  ⟨q1.q0 * q2.q0 - q1.q1 * q2.q1 - q1.q2 * q2.q2 - q1.q3 * q2.q3,
   q1.q0 * q2.q1 + q1.q1 * q2.q0 + q1.q2 * q2.q3 - q1.q3 * q2.q2,
   q1.q0 * q2.q2 - q1.q1 * q2.q3 + q1.q2 * q2.q0 + q1.q3 * q2.q1,
   q1.q0 * q2.q3 + q1.q1 * q2.q2 - q1.q2 * q2.q1 + q1.q3 * q2.q0⟩

/-- Source.prototype.setPosition (src/source.js lines 107-138): stores the
new absolute position, computes the difference vector to the listener and
its Euclidean norm, normalizes the difference by that norm, recomputes the
directivity gain, converts the normalized vector to azimuth/elevation in
degrees, and pushes distance and angles to the collaborators. -/
def setPosition (listenerPos : Vec3) (s : SourceState) (x y z : ℝ) :
    PoseUpdate :=
  let dx0 := x - listenerPos.x
  let dx1 := y - listenerPos.y
  let dx2 := z - listenerPos.z
  let distance := Real.sqrt (dx0 * dx0 + dx1 * dx1 + dx2 * dx2)
  let n0 := dx0 / distance
  let n1 := dx1 / distance
  let n2 := dx2 / distance
  let gain := computeDirectivity s._forward ⟨n0, n1, n2⟩
    s._directivity_alpha s._directivity_order
  let azimuth := atan2 (-n0) n2 * OneEightyByPi
  let elevation := atan2 n1 (Real.sqrt (n0 * n0 + n2 * n2)) * OneEightyByPi
  { state := { s with _position := ⟨x, y, z⟩ }
    directivityGain := gain
    direction := ⟨n0, n1, n2⟩
    attenuationDistance := distance
    encoderAzimuth := azimuth
    encoderElevation := elevation }

/-- Source.prototype.setAngleFromListener (src/source.js lines 146-173):
converts the degree angles to radians, builds the offset vector
(-sin theta * cos phi, sin theta, -cos theta * cos phi), recomputes the
directivity gain against that vector, stores listener position plus offset
as the new source position, and pushes the given distance and the pair
(-azimuth, elevation) to the collaborators.  The undefined-argument
defaults (elevation 0, distance 1) are left to the caller here, since every
argument is explicit in this model. -/
def setAngleFromListener (listenerPos : Vec3) (s : SourceState)
    (azimuth elevation distance : ℝ) : PoseUpdate :=
  let theta := azimuth * PiByOneEighty
  let phi := elevation * PiByOneEighty
  let x := -Real.sin theta * Real.cos phi
  let y := Real.sin theta
  let z := -Real.cos theta * Real.cos phi
  let gain := computeDirectivity s._forward ⟨x, y, z⟩
    s._directivity_alpha s._directivity_order
  { state := { s with _position :=
      ⟨listenerPos.x + x, listenerPos.y + y, listenerPos.z + z⟩ }
    directivityGain := gain
    direction := ⟨x, y, z⟩
    attenuationDistance := distance
    encoderAzimuth := -azimuth
    encoderElevation := elevation }

/-- Source.prototype.setOrientation (src/source.js lines 181-190): stores
the quaternion for the given Euler angles and recomputes the forward vector
as the vector part of q * (0,0,0,1) * conjugate(q). -/
def setOrientation (s : SourceState) (roll pitch yaw : ℝ) : SourceState :=
  let q := toQuaternion roll pitch yaw
  let f := hamiltonProduct (hamiltonProduct q ⟨0, 0, 0, 1⟩)
    ⟨q.q0, -q.q1, -q.q2, -q.q3⟩
  { s with _orientation_q := q, _forward := ⟨f.q1, f.q2, f.q3⟩ }

/-- Source.prototype.setVelocity (src/source.js lines 198-200): the body is
empty apart from a TODO comment, so the state is returned unchanged and no
collaborator is touched. -/
def setVelocity (s : SourceState) (x y z : ℝ) : SourceState :=
  s

/-- Source.prototype.setDirectivity (src/source.js lines 210-216): alpha is
clamped to [0, 1] with min/max; order is stored as min(1, order), exactly as
the code writes it. -/
def setDirectivity (s : SourceState) (alpha order : ℝ) : SourceState :=
  { s with _directivity_alpha := min 1 (max 0 alpha),
           _directivity_order := min 1 order }

/-- A concrete source state with the fields a freshly constructed Source
holds when bound to a first-order listener: position, velocity zero,
orientation quaternion (1,0,0,0) and forward (0,0,1) as produced by
setOrientation(0,0,0), directivity alpha 0 and order equal to the listener
ambisonic order 1 (src/source.js lines 66-72 and 91-98). -/
def initialSource : SourceState :=
  { _position := ⟨0, 0, 0⟩
    _velocity := ⟨0, 0, 0⟩
    _orientation_q := ⟨1, 0, 0, 0⟩
    _forward := ⟨0, 0, 1⟩
    _directivity_alpha := 0
    _directivity_order := 1 }

end

/-- Claim C9: the position stored by setAngleFromListener does not depend on
the distance argument: for every listener position, state, azimuth,
elevation and two distances, the resulting positions coincide (the offset is
computed from the angles only; distance is forwarded only to the attenuation
collaborator). -/
theorem setAngleFromListener_position_independent_of_distance
    (lp : Vec3) (s : SourceState) (az el d1 d2 : ℝ) :
    (setAngleFromListener lp s az el d1).state._position =
      (setAngleFromListener lp s az el d2).state._position := rfl

/-- Claim C10: for every roll, pitch and yaw, the quaternion stored by
setOrientation (produced by toQuaternion) has unit norm: the sum of the
squares of its four components is 1 in exact real arithmetic. -/
theorem setOrientation_quaternion_unit_norm
    (s : SourceState) (roll pitch yaw : ℝ) :
    ((setOrientation s roll pitch yaw)._orientation_q.q0) ^ 2 +
    ((setOrientation s roll pitch yaw)._orientation_q.q1) ^ 2 +
    ((setOrientation s roll pitch yaw)._orientation_q.q2) ^ 2 +
    ((setOrientation s roll pitch yaw)._orientation_q.q3) ^ 2 = 1 := by
  have key : ∀ a b c d e f : ℝ,
      (a * c * e + b * d * f) ^ 2 + (a * d * e - b * c * f) ^ 2 +
      (a * c * f + b * d * e) ^ 2 + (b * c * e - a * d * f) ^ 2 =
      (a ^ 2 + b ^ 2) * (c ^ 2 + d ^ 2) * (e ^ 2 + f ^ 2) := by
    intro a b c d e f
    ring
  show (Real.cos (yaw * 0.5) * Real.cos (roll * 0.5) * Real.cos (pitch * 0.5) +
      Real.sin (yaw * 0.5) * Real.sin (roll * 0.5) * Real.sin (pitch * 0.5)) ^ 2 +
    (Real.cos (yaw * 0.5) * Real.sin (roll * 0.5) * Real.cos (pitch * 0.5) -
      Real.sin (yaw * 0.5) * Real.cos (roll * 0.5) * Real.sin (pitch * 0.5)) ^ 2 +
    (Real.cos (yaw * 0.5) * Real.cos (roll * 0.5) * Real.sin (pitch * 0.5) +
      Real.sin (yaw * 0.5) * Real.sin (roll * 0.5) * Real.cos (pitch * 0.5)) ^ 2 +
    (Real.sin (yaw * 0.5) * Real.cos (roll * 0.5) * Real.cos (pitch * 0.5) -
      Real.cos (yaw * 0.5) * Real.sin (roll * 0.5) * Real.sin (pitch * 0.5)) ^ 2 = 1
  rw [key]
  rw [Real.cos_sq_add_sin_sq, Real.cos_sq_add_sin_sq, Real.cos_sq_add_sin_sq]
  norm_num

/-- Claim C8: after setOrientation(0, 0, 0) the stored forward vector equals
the local positive z axis (0, 0, 1). -/
theorem setOrientation_zero_forward (s : SourceState) :
    (setOrientation s 0 0 0)._forward = ⟨0, 0, 1⟩ := by
  simp [setOrientation, toQuaternion, hamiltonProduct]

/-- Claim C6, evaluated at the failing input: calling setVelocity(1, 2, 3)
on a freshly constructed source leaves the velocity field at (0, 0, 0):
nothing is stored, contradicting the claim that (x, y, z) is retained. -/
theorem setVelocity_does_not_store :
    (setVelocity initialSource 1 2 3)._velocity = ⟨0, 0, 0⟩ ∧
      ((⟨0, 0, 0⟩ : Vec3) ≠ ⟨1, 2, 3⟩) := by
  constructor
  · rfl
  · intro h
    have hx : (0 : ℝ) = 1 := congrArg Vec3.x h
    norm_num at hx

/-- Claim C4, evaluated at failing inputs: setDirectivity stores
min(1, order), so order 5 (at least 1, which the claim says is kept
unchanged) is stored as 1, while order 1/2 (below 1, which the claim says is
clamped up to 1) is stored unchanged as 1/2. -/
theorem setDirectivity_order_clamp_inverted :
    (setDirectivity initialSource 0 5)._directivity_order = 1 ∧
      (setDirectivity initialSource 0 (1 / 2))._directivity_order = 1 / 2 := by
  constructor
  · show min (1 : ℝ) 5 = 1
    norm_num
  · show min (1 : ℝ) (1 / 2) = 1 / 2
    norm_num

/-- Unfolding computeDirectivity to its two branches, with the let-bound
intermediate values substituted. -/
lemma computeDirectivity_eq (f d : Vec3) (alpha order : ℝ) :
    computeDirectivity f d alpha order =
      if alpha < EpsilonFloat then 1.0
      else |(1 - alpha) + alpha * (f.x * d.x + f.y * d.y + f.z * d.z)| ^ order :=
  rfl

/-- Claim C5, counterexample: with alpha = 1, order = 1 and forward
antiparallel to the direction to the listener (cosTheta = -1), the gain is
|0 + 1 * (-1)| ^ 1 = 1, not the 0.0 the claim states. -/
theorem computeDirectivity_antiparallel_not_zero :
    computeDirectivity ⟨0, 0, 1⟩ ⟨0, 0, -1⟩ 1 1 = 1 ∧ (1 : ℝ) ≠ 0 := by
  constructor
  · rw [computeDirectivity_eq]
    rw [if_neg (by norm_num [EpsilonFloat])]
    norm_num [Real.one_rpow]
  · norm_num

/-- Claim C5 amended: with alpha = 1 and order = 1, computeDirectivity
returns 1.0 both when forward is parallel to the direction to the listener
(cosTheta = 1) and when they are antiparallel (cosTheta = -1): the absolute
value before exponentiation makes alpha = 1 a bidirectional figure-eight
pattern. -/
theorem computeDirectivity_parallel_and_antiparallel_one :
    computeDirectivity ⟨0, 0, 1⟩ ⟨0, 0, 1⟩ 1 1 = 1 ∧
      computeDirectivity ⟨0, 0, 1⟩ ⟨0, 0, -1⟩ 1 1 = 1 := by
  constructor <;>
  · rw [computeDirectivity_eq]
    rw [if_neg (by norm_num [EpsilonFloat])]
    norm_num [Real.one_rpow]

/-- Claim C7: for alpha in [0, 1], order at least 1, and unit vectors
forward and direction-to-listener, computeDirectivity returns a value in
[0, 1]. -/
theorem computeDirectivity_in_unit_interval
    (f d : Vec3) (alpha order : ℝ)
    (ha0 : 0 ≤ alpha) (ha1 : alpha ≤ 1) (ho : 1 ≤ order)
    (hf : f.x ^ 2 + f.y ^ 2 + f.z ^ 2 = 1)
    (hd : d.x ^ 2 + d.y ^ 2 + d.z ^ 2 = 1) :
    0 ≤ computeDirectivity f d alpha order ∧
      computeDirectivity f d alpha order ≤ 1 := by
  have hprod : (f.x ^ 2 + f.y ^ 2 + f.z ^ 2) * (d.x ^ 2 + d.y ^ 2 + d.z ^ 2)
      = 1 := by rw [hf, hd]; norm_num
  have hcs : (f.x * d.x + f.y * d.y + f.z * d.z) ^ 2 ≤ 1 := by
    nlinarith [sq_nonneg (f.x * d.y - f.y * d.x),
      sq_nonneg (f.x * d.z - f.z * d.x), sq_nonneg (f.y * d.z - f.z * d.y),
      hprod]
  have hc1 : -1 ≤ f.x * d.x + f.y * d.y + f.z * d.z := by nlinarith [hcs]
  have hc2 : f.x * d.x + f.y * d.y + f.z * d.z ≤ 1 := by nlinarith [hcs]
  have hg : |(1 - alpha) + alpha * (f.x * d.x + f.y * d.y + f.z * d.z)| ≤ 1 := by
    rw [abs_le]
    constructor <;> nlinarith
  rw [computeDirectivity_eq]
  by_cases h : alpha < EpsilonFloat
  · rw [if_pos h]
    norm_num
  · rw [if_neg h]
    exact ⟨Real.rpow_nonneg (abs_nonneg _) _,
      Real.rpow_le_one (abs_nonneg _) hg (by linarith)⟩

/-- Witness for claim C7 at a concrete input: alpha = 1/2, order = 2,
forward (0,0,1), direction (1,0,0). -/
theorem computeDirectivity_in_unit_interval_witness :
    0 ≤ computeDirectivity ⟨0, 0, 1⟩ ⟨1, 0, 0⟩ (1 / 2) 2 ∧
      computeDirectivity ⟨0, 0, 1⟩ ⟨1, 0, 0⟩ (1 / 2) 2 ≤ 1 :=
  computeDirectivity_in_unit_interval ⟨0, 0, 1⟩ ⟨1, 0, 0⟩ (1 / 2) 2
    (by norm_num) (by norm_num) (by norm_num) (by norm_num) (by norm_num)

/-- Claim C1, evaluated at the failing input: with the listener at the
origin, setPosition(0, 0, 0) computes distance sqrt(0) = 0 and passes that 0
(not a positive epsilon) to the attenuation collaborator.  The JavaScript
code then divides the difference vector by this zero distance, producing NaN
direction components that reach the encoder; in this exact-real model total
division by zero returns 0, so the computed direction is the zero vector —
in either semantics no clamping and no unit fallback direction occur. -/
theorem setPosition_zero_distance_unguarded :
    (setPosition ⟨0, 0, 0⟩ initialSource 0 0 0).attenuationDistance = 0 ∧
      (setPosition ⟨0, 0, 0⟩ initialSource 0 0 0).direction = ⟨0, 0, 0⟩ := by
  constructor
  · show Real.sqrt (((0 : ℝ) - 0) * (0 - 0) + (0 - 0) * (0 - 0) +
      (0 - 0) * (0 - 0)) = 0
    norm_num
  · show (⟨((0 : ℝ) - 0) / Real.sqrt (((0 : ℝ) - 0) * (0 - 0) +
        (0 - 0) * (0 - 0) + (0 - 0) * (0 - 0)),
      ((0 : ℝ) - 0) / Real.sqrt (((0 : ℝ) - 0) * (0 - 0) +
        (0 - 0) * (0 - 0) + (0 - 0) * (0 - 0)),
      ((0 : ℝ) - 0) / Real.sqrt (((0 : ℝ) - 0) * (0 - 0) +
        (0 - 0) * (0 - 0) + (0 - 0) * (0 - 0))⟩ : Vec3) = ⟨0, 0, 0⟩
    norm_num

/-- The values setPosition pushes downstream for a source at (0, 0, 5) with
the listener at the origin: distance 5, normalized difference vector
(0, 0, 1), azimuth 0 and elevation 0. -/
lemma setPosition_front_values :
    (setPosition ⟨0, 0, 0⟩ initialSource 0 0 5).attenuationDistance = 5 ∧
    (setPosition ⟨0, 0, 0⟩ initialSource 0 0 5).direction = ⟨0, 0, 1⟩ ∧
    (setPosition ⟨0, 0, 0⟩ initialSource 0 0 5).encoderAzimuth = 0 ∧
    (setPosition ⟨0, 0, 0⟩ initialSource 0 0 5).encoderElevation = 0 := by
  have hdist : Real.sqrt (((0 : ℝ) - 0) * (0 - 0) + (0 - 0) * (0 - 0) +
      (5 - 0) * (5 - 0)) = 5 := by
    rw [show ((0 : ℝ) - 0) * (0 - 0) + (0 - 0) * (0 - 0) + (5 - 0) * (5 - 0)
      = 5 ^ 2 by norm_num]
    exact Real.sqrt_sq (by norm_num)
  refine ⟨?_, ?_, ?_, ?_⟩
  · show Real.sqrt (((0 : ℝ) - 0) * (0 - 0) + (0 - 0) * (0 - 0) +
      (5 - 0) * (5 - 0)) = 5
    exact hdist
  · show (⟨((0 : ℝ) - 0) / Real.sqrt (((0 : ℝ) - 0) * (0 - 0) +
        (0 - 0) * (0 - 0) + (5 - 0) * (5 - 0)),
      ((0 : ℝ) - 0) / Real.sqrt (((0 : ℝ) - 0) * (0 - 0) +
        (0 - 0) * (0 - 0) + (5 - 0) * (5 - 0)),
      ((5 : ℝ) - 0) / Real.sqrt (((0 : ℝ) - 0) * (0 - 0) +
        (0 - 0) * (0 - 0) + (5 - 0) * (5 - 0))⟩ : Vec3) = ⟨0, 0, 1⟩
    rw [hdist]
    norm_num
  · show atan2 (-(((0 : ℝ) - 0) / Real.sqrt (((0 : ℝ) - 0) * (0 - 0) +
        (0 - 0) * (0 - 0) + (5 - 0) * (5 - 0))))
      (((5 : ℝ) - 0) / Real.sqrt (((0 : ℝ) - 0) * (0 - 0) +
        (0 - 0) * (0 - 0) + (5 - 0) * (5 - 0))) * OneEightyByPi = 0
    rw [hdist]
    norm_num [atan2]
  · show atan2 (((0 : ℝ) - 0) / Real.sqrt (((0 : ℝ) - 0) * (0 - 0) +
        (0 - 0) * (0 - 0) + (5 - 0) * (5 - 0)))
      (Real.sqrt ((((0 : ℝ) - 0) / Real.sqrt (((0 : ℝ) - 0) * (0 - 0) +
          (0 - 0) * (0 - 0) + (5 - 0) * (5 - 0))) *
        (((0 : ℝ) - 0) / Real.sqrt (((0 : ℝ) - 0) * (0 - 0) +
          (0 - 0) * (0 - 0) + (5 - 0) * (5 - 0))) +
        (((5 : ℝ) - 0) / Real.sqrt (((0 : ℝ) - 0) * (0 - 0) +
          (0 - 0) * (0 - 0) + (5 - 0) * (5 - 0))) *
        (((5 : ℝ) - 0) / Real.sqrt (((0 : ℝ) - 0) * (0 - 0) +
          (0 - 0) * (0 - 0) + (5 - 0) * (5 - 0)))))
      * OneEightyByPi = 0
    rw [hdist]
    norm_num [atan2]

/-- Claim C2, counterexample: for a source at (0, 0, 5) with the listener at
the origin, the azimuth passed to the encoder is 0, not the 180 degrees the
claim states, and the normalized vector the code computes is (0, 0, 1) (from
listener towards source), not the (0, 0, -1) the claim states. -/
theorem setPosition_front_source_not_rear :
    (setPosition ⟨0, 0, 0⟩ initialSource 0 0 5).encoderAzimuth ≠ 180 ∧
      (setPosition ⟨0, 0, 0⟩ initialSource 0 0 5).direction ≠ ⟨0, 0, -1⟩ := by
  obtain ⟨-, hdir, haz, -⟩ := setPosition_front_values
  constructor
  · rw [haz]
    norm_num
  · rw [hdir]
    intro h
    have hz : (1 : ℝ) = -1 := congrArg Vec3.z h
    norm_num at hz

/-- Claim C2 amended: with the listener at the origin, setPosition(0, 0, 5)
passes distance 5.0 to the attenuation collaborator, computes the normalized
difference vector (0, 0, 1) (pointing from the listener towards the source),
and passes azimuth 0 degrees and elevation 0 degrees to the encoder
collaborator. -/
theorem setPosition_front_source_values :
    (setPosition ⟨0, 0, 0⟩ initialSource 0 0 5).attenuationDistance = 5 ∧
    (setPosition ⟨0, 0, 0⟩ initialSource 0 0 5).direction = ⟨0, 0, 1⟩ ∧
    (setPosition ⟨0, 0, 0⟩ initialSource 0 0 5).encoderAzimuth = 0 ∧
    (setPosition ⟨0, 0, 0⟩ initialSource 0 0 5).encoderElevation = 0 :=
  setPosition_front_values

/-- Claim C3, evaluated at the failing input: with the listener at the
origin, setAngleFromListener(90, 0, 2) stores position (-1, 1, 0), not a
point near (-2, 0, 0): the offset's y component is sin(azimuth) rather than
sin(elevation), and the offset is never scaled by the distance argument
(which is forwarded only to the attenuation collaborator).  The encoder does
receive azimuth -90 and elevation 0 as the claim states. -/
theorem setAngleFromListener_90_0_2_values :
    (setAngleFromListener ⟨0, 0, 0⟩ initialSource 90 0 2).state._position
      = ⟨-1, 1, 0⟩ ∧
    (setAngleFromListener ⟨0, 0, 0⟩ initialSource 90 0 2).encoderAzimuth
      = -90 ∧
    (setAngleFromListener ⟨0, 0, 0⟩ initialSource 90 0 2).encoderElevation
      = 0 ∧
    ((⟨-1, 1, 0⟩ : Vec3) ≠ ⟨-2, 0, 0⟩) := by
  have h90 : (90 : ℝ) * PiByOneEighty = Real.pi / 2 := by
    rw [PiByOneEighty]
    ring
  have h0 : (0 : ℝ) * PiByOneEighty = 0 := by
    rw [PiByOneEighty]
    ring
  refine ⟨?_, rfl, rfl, ?_⟩
  · show (⟨(0 : ℝ) + -Real.sin ((90 : ℝ) * PiByOneEighty) *
        Real.cos ((0 : ℝ) * PiByOneEighty),
      (0 : ℝ) + Real.sin ((90 : ℝ) * PiByOneEighty),
      (0 : ℝ) + -Real.cos ((90 : ℝ) * PiByOneEighty) *
        Real.cos ((0 : ℝ) * PiByOneEighty)⟩ : Vec3) = ⟨-1, 1, 0⟩
    rw [h90, h0, Real.sin_pi_div_two, Real.cos_pi_div_two, Real.cos_zero]
    norm_num
  · intro h
    have hy : (1 : ℝ) = 0 := congrArg Vec3.y h
    norm_num at hy

end Songbird
